import Mathlib

/-!
Verification of the todo-backend HTTP CRUD service (src/src/main.rs).

The Rust source is shallowly embedded: each request handler becomes a Lean
function over an explicit database state, each SQL statement becomes a pure
function on that state, and storage failures are injected through an explicit
`Option SqlxError` fault argument standing for the outcome of the single SQL
statement a handler runs (`none` = the statement ran normally, `some e` = the
storage layer failed with error `e`).
-/

namespace TodoBackend

/-- The persisted row type, from `struct Todo` in main.rs (`id: i64`,
`title: String`, `completed: bool`, `order: i64`). -/
structure Todo where
  id : Int
  title : String
  completed : Bool
  order : Int
deriving Repr, DecidableEq

/-- Request body for create, from `struct NewTodo` (required `title`,
optional `order`). -/
structure NewTodo where
  title : String
  order : Option Int
deriving Repr, DecidableEq

/-- Request body for patch, from `struct UpdateTodo` (all fields optional). -/
structure UpdateTodo where
  title : Option String
  completed : Option Bool
  order : Option Int
deriving Repr, DecidableEq

/-- Wire shape of one item, from `struct TodoPresenter`: the flattened todo
plus the computed `url`. -/
structure TodoPresenter where
  todo : Todo
  url : String
deriving Repr, DecidableEq

/-- URL configuration, from `struct RoutingService`. -/
structure RoutingService where
  host : String
  port : Nat
  scheme : String
deriving Repr, DecidableEq

/-- The handler-level error taxonomy, from `enum Error` in main.rs. -/
inductive Error where
  | InternalError
  | BadClientData
  | Timeout
  | NotFound
deriving Repr, DecidableEq

/-- HTTP status of each error kind, from `impl error::ResponseError for
Error`, fn `status_code`. -/
def Error.statusCode : Error → Nat
  | .InternalError => 500
  | .BadClientData => 400
  | .Timeout => 504
  | .NotFound => 404

/-- The fixed short message of each error kind, from the `#[display(...)]`
attributes on `enum Error`. -/
def Error.message : Error → String
  | .InternalError => "internal error"
  | .BadClientData => "bad request"
  | .Timeout => "timeout"
  | .NotFound => "not found"

/-- Storage-layer errors, abstracting `sqlx::Error`: the `RowNotFound`
variant that `fetch_one` produces when no row matches, and a sample of the
other variants, which the code treats uniformly. -/
inductive SqlxError where
  | RowNotFound
  | Io
  | PoolTimedOut
  | Database
  | Protocol
deriving Repr, DecidableEq

/-- The error conversion at the handler boundary, from
`impl From<sqlx::Error> for Error`: `RowNotFound` maps to `NotFound`, every
other storage error maps to `InternalError`. -/
def Error.fromSqlx : SqlxError → Error
  | .RowNotFound => .NotFound
  | _ => .InternalError

/-- An HTTP response as produced by the two delete handlers
(`HttpResponse::NoContent().finish()` and
`HttpResponse::BadRequest().body(...)`). -/
structure HttpResponse where
  status : Nat
  body : String
deriving Repr, DecidableEq

/-- Modelled from the spec: the pre-existing `todos` table — "a single table
with columns `id` (auto-assigned primary key), `title` (text), `completed`
(boolean), `order` (integer)". `rows` is the bag of stored rows and `nextId`
the next value of the id-assigning sequence; the schema itself is not part of
the repository. -/
structure Db where
  rows : List Todo
  nextId : Int
deriving Repr, DecidableEq

/-- A db state whose id sequence is ahead of every stored id, as the
auto-assigning primary key guarantees ("`id` is never reused or
reassigned"). -/
def Db.freshIds (db : Db) : Prop :=
  ∀ t ∈ db.rows, t.id < db.nextId

instance (db : Db) : Decidable db.freshIds :=
  inferInstanceAs (Decidable (∀ t ∈ db.rows, t.id < db.nextId))

/-- The outcome of one SQL statement: `fault = some e` means the storage
layer failed with `e` (connection loss, pool exhaustion, ...), `fault = none`
means the statement executed and `r` is its result. -/
def runQ (fault : Option SqlxError) (r : Except SqlxError α) : Except SqlxError α :=
  match fault with
  | some e => .error e
  | none => r

/-- `SELECT * FROM todos ORDER BY id`: all rows, sorted ascending by id. -/
def idLe (a b : Todo) : Prop := a.id ≤ b.id

instance : DecidableRel idLe :=
  fun a b => inferInstanceAs (Decidable (a.id ≤ b.id))

instance : IsTotal Todo idLe := ⟨fun a b => le_total a.id b.id⟩

instance : IsTrans Todo idLe := ⟨fun _ _ _ hab hbc => le_trans hab hbc⟩

/-- Result of `SELECT * FROM todos ORDER BY id` (fetch_all). -/
def selectAllOrderById (db : Db) : List Todo :=
  db.rows.insertionSort idLe

/-- Result of `SELECT * FROM todos WHERE id = $1` run through `fetch_one`:
the first matching row, or the `RowNotFound` storage error when no row
matches. -/
def fetchOne (db : Db) (i : Int) : Except SqlxError Todo :=
  match db.rows.find? (fun t => t.id == i) with
  | some t => .ok t
  | none => .error SqlxError.RowNotFound

/-- Modelled from the spec for the parts the schema supplies: `INSERT INTO
todos (title, "order") VALUES($1, $2) RETURNING id, title, completed,
"order"`. The statement names only `title` and `order`; the table assigns
`id` from its sequence and `completed` defaults to false ("insert new row,
let storage assign `id`, `completed` defaults false"). -/
def insertTodo (db : Db) (title : String) (order : Int) : Todo × Db :=
  let t : Todo := { id := db.nextId, title := title, completed := false, order := order }
  (t, { rows := db.rows ++ [t], nextId := db.nextId + 1 })

/-- `UPDATE todos SET title = $1, completed = $2, "order" = $3 WHERE id = $4
RETURNING id, title, completed, "order"` run through `fetch_one`: rewrites
every row whose id matches and returns the written row; `RowNotFound` when no
row matched. -/
def updateTodo (db : Db) (title : String) (completed : Bool) (order : Int)
    (i : Int) : Except SqlxError (Todo × Db) :=
  if db.rows.any (fun t => t.id == i) then
    .ok ({ id := i, title := title, completed := completed, order := order },
      { db with rows := db.rows.map (fun t =>
          if t.id == i then { id := i, title := title, completed := completed, order := order }
          else t) })
  else
    .error SqlxError.RowNotFound

/-- `DELETE FROM todos`: remove every row unconditionally. -/
def deleteAllRows (db : Db) : Db := { db with rows := [] }

/-- `DELETE FROM todos WHERE id = $1`: remove the matching rows, whether or
not any exist. -/
def deleteById (db : Db) (i : Int) : Db :=
  { db with rows := db.rows.filter (fun t => t.id != i) }

/-- `RoutingService::todo_url`, from main.rs:
`format!("{}://{}:{}/todos/{}", self.scheme, self.host, self.port, id)`. -/
def todo_url (r : RoutingService) (id : Int) : String :=
  s!"{r.scheme}://{r.host}:{r.port}/todos/{id}"

/-- The spec's wording of the URL builder contract: "pure function
`buildUrl(scheme, host, port, id) -> string`, concatenating
`scheme://host:port/todos/{id}`". -/
def buildUrl (scheme host : String) (port : Nat) (id : Int) : String :=
  scheme ++ "://" ++ host ++ ":" ++ toString port ++ "/todos/" ++ toString id

/-- Presentation of one row, as built by the `Responder` impls: the row plus
its url. -/
def present (routing : RoutingService) (t : Todo) : TodoPresenter :=
  { todo := t, url := todo_url routing t.id }

/-- `todos_list_handler` (`GET /todos`): fetch all rows ordered by id, wrap
each in a presenter. The `?` operator converts a storage error via
`Error.fromSqlx`. -/
def todos_list_handler (fault : Option SqlxError) (routing : RoutingService)
    (db : Db) : Except Error (List TodoPresenter) :=
  match runQ fault (.ok (selectAllOrderById db)) with
  | .error e => .error (Error.fromSqlx e)
  | .ok todos => .ok (todos.map (present routing))

/-- `todos_show_handler` (`GET /todos/{id:\d+}`): fetch one row by id, wrap
it in a presenter built from the path id. -/
def todos_show_handler (fault : Option SqlxError) (routing : RoutingService)
    (db : Db) (id : Int) : Except Error TodoPresenter :=
  match runQ fault (fetchOne db id) with
  | .error e => .error (Error.fromSqlx e)
  | .ok todo => .ok { todo := todo, url := todo_url routing id }

/-- `create_todo_handler` (`POST /todos`): `order` defaults to 0 via
`unwrap_or(0)`, then the insert statement runs and its returned row is
presented. -/
def create_todo_handler (fault : Option SqlxError) (routing : RoutingService)
    (db : Db) (todo : NewTodo) : Except Error (TodoPresenter × Db) :=
  let title := todo.title
  let order := todo.order.getD 0
  match runQ fault (.ok (insertTodo db title order)) with
  | .error e => .error (Error.fromSqlx e)
  | .ok (t, db) => .ok ({ todo := t, url := todo_url routing t.id }, db)

/-- The overlay step of `patch_todo_handler`: the three `if let Some(...)`
blocks that overwrite exactly the supplied fields of the fetched row. -/
def applyUpdate (u : UpdateTodo) (todo : Todo) : Todo :=
  let todo := match u.title with
    | some title => { todo with title := title }
    | none => todo
  let todo := match u.completed with
    | some completed => { todo with completed := completed }
    | none => todo
  match u.order with
    | some order => { todo with order := order }
    | none => todo

/-- `patch_todo_handler` (`PATCH /todos/{id:\d+}`): fetch the row, overlay
the supplied fields, write the merged row back, present the returned row.
`ffault` is a storage fault on the fetch statement, `ufault` on the update
statement. -/
def patch_todo_handler (ffault ufault : Option SqlxError)
    (routing : RoutingService) (db : Db) (id : Int) (u : UpdateTodo) :
    Except Error (TodoPresenter × Db) :=
  match runQ ffault (fetchOne db id) with
  | .error e => .error (Error.fromSqlx e)
  | .ok todo =>
    let todo := applyUpdate u todo
    match runQ ufault (updateTodo db todo.title todo.completed todo.order todo.id) with
    | .error e => .error (Error.fromSqlx e)
    | .ok (t, db) => .ok ({ todo := t, url := todo_url routing t.id }, db)

/-- `delete_todos_handler` (`DELETE /todos`): run `DELETE FROM todos`; on
success respond NoContent (204), on any storage failure respond BadRequest
(400) with a fixed message — this handler does not go through
`Error.fromSqlx`. -/
def delete_todos_handler (fault : Option SqlxError) (db : Db) :
    HttpResponse × Db :=
  match fault with
  | none => ({ status := 204, body := "" }, deleteAllRows db)
  | some _ => ({ status := 400, body := "Error trying to delete a todo" }, db)

/-- `delete_todo_handler` (`DELETE /todos/{id:\d+}`): run the delete by id;
the `?` operator maps a storage error via `Error.fromSqlx`; on success
respond NoContent (204) whether or not any row was affected. -/
def delete_todo_handler (fault : Option SqlxError) (db : Db) (id : Int) :
    Except Error (HttpResponse × Db) :=
  match runQ fault (.ok (deleteById db id)) with
  | .error e => .error (Error.fromSqlx e)
  | .ok db => .ok ({ status := 204, body := "" }, db)

/-- The numeric constraint of the show/patch/delete-one routes: the path
pattern `{id:\d+}` matches a segment iff it is one or more digits. -/
def route_id_matches (seg : String) : Bool :=
  seg.length > 0 && seg.all Char.isDigit

/-- A minimal JSON value, to express what the create body may contain beyond
the fields the code reads. -/
inductive Json where
  | str : String → Json
  | int : Int → Json
  | bool : Bool → Json
  | null : Json
deriving Repr, DecidableEq

/-- Deserialization of the create body into `NewTodo`, following the serde
derive on `struct NewTodo`: read `title` (required string) and `order`
(optional integer, absent or null gives `none`); every other field of the
body is ignored; a missing or mistyped field is a deserialization error. -/
def decodeNewTodo (body : List (String × Json)) : Option NewTodo :=
  match body.lookup "title" with
  | some (Json.str s) =>
    match body.lookup "order" with
    | none => some { title := s, order := none }
    | some Json.null => some { title := s, order := none }
    | some (Json.int n) => some { title := s, order := some n }
    | some _ => none
  | _ => none

/-- The create route including body deserialization: a body that fails to
deserialize is rejected as bad request (400) by the `web::Json` extractor
before the handler runs. -/
def create_todo_from_body (fault : Option SqlxError) (routing : RoutingService)
    (db : Db) (body : List (String × Json)) : Except Error (TodoPresenter × Db) :=
  match decodeNewTodo body with
  | none => .error Error.BadClientData
  | some n => create_todo_handler fault routing db n

/-- Concrete routing configuration for evaluation (the defaults from main.rs:
host `127.0.0.1`, port `8080`, scheme `http`). -/
def routing0 : RoutingService := ⟨"127.0.0.1", 8080, "http"⟩

/-- The empty store. -/
def db0 : Db := ⟨[], 1⟩

/-- A concrete two-row store for evaluation. -/
def dbA : Db := ⟨[⟨1, "a", false, 0⟩, ⟨2, "b", true, 5⟩], 3⟩

theorem applyUpdate_eq (u : UpdateTodo) (t : Todo) :
    applyUpdate u t =
      { id := t.id, title := u.title.getD t.title,
        completed := u.completed.getD t.completed,
        order := u.order.getD t.order } := by
  rcases u with ⟨ut, uc, uo⟩
  cases ut <;> cases uc <;> cases uo <;> rfl

theorem todo_url_eq_buildUrl (r : RoutingService) (id : Int) :
    todo_url r id = buildUrl r.scheme r.host r.port id := by
  simp [todo_url, buildUrl, String.append_assoc, toString]

theorem fetchOne_ok_mem (db : Db) (i : Int) (t : Todo)
    (h : fetchOne db i = .ok t) : t ∈ db.rows ∧ t.id = i := by
  unfold fetchOne at h
  cases hf : db.rows.find? (fun s => s.id == i) with
  | none => rw [hf] at h; cases h
  | some s =>
    rw [hf] at h
    cases h
    have hm := List.mem_of_find?_eq_some hf
    have hp := List.find?_some hf
    simp only [beq_iff_eq] at hp
    exact ⟨hm, hp⟩

theorem fetchOne_none (db : Db) (i : Int) (h : ∀ t ∈ db.rows, t.id ≠ i) :
    fetchOne db i = .error SqlxError.RowNotFound := by
  unfold fetchOne
  rw [List.find?_eq_none.mpr (fun t ht => by simpa using h t ht)]

/-- C3: for every state of the store, the list operation returns all stored
items sorted by ascending id (as presentations), and returns the empty array
when the store holds no rows. -/
theorem list_returns_all_sorted_by_id (routing : RoutingService) (db : Db) :
    ∃ l : List Todo, todos_list_handler none routing db = .ok (l.map (present routing)) ∧
      l.Perm db.rows ∧ l.Sorted idLe ∧
      (db.rows = [] → todos_list_handler none routing db = .ok []) := by
  refine ⟨selectAllOrderById db, rfl, List.perm_insertionSort idLe db.rows,
    List.sorted_insertionSort idLe db.rows, ?_⟩
  intro h
  simp [todos_list_handler, runQ, selectAllOrderById, h]

/-- Witness for C3: on the empty store the list handler returns the empty
array. -/
theorem list_returns_all_sorted_by_id_witness :
    todos_list_handler none routing0 db0 = .ok [] := by
  obtain ⟨l, _, _, _, h⟩ := list_returns_all_sorted_by_id routing0 db0
  exact h rfl

/-- C4: a create request whose body omits `order` yields an item with
`order == 0` and `completed == false`; when `order` is supplied the created
item carries the supplied value. -/
theorem create_defaults_order_zero_completed_false
    (routing : RoutingService) (db : Db) (title : String) :
    (∃ db1, create_todo_handler none routing db { title := title, order := none } =
      .ok ({ todo := { id := db.nextId, title := title, completed := false, order := 0 },
             url := todo_url routing db.nextId }, db1)) ∧
    (∀ o : Int, ∃ db2,
      create_todo_handler none routing db { title := title, order := some o } =
        .ok ({ todo := { id := db.nextId, title := title, completed := false, order := o },
               url := todo_url routing db.nextId }, db2)) :=
  ⟨⟨_, rfl⟩, fun _ => ⟨_, rfl⟩⟩

/-- C5: delete-one succeeds with an empty body and status 204 for every id,
present or not; on an absent id the store is unchanged, and the operation is
idempotent. -/
theorem delete_one_no_content_idempotent (db : Db) (id : Int) :
    delete_todo_handler none db id =
      .ok ({ status := 204, body := "" }, deleteById db id) ∧
    ((∀ t ∈ db.rows, t.id ≠ id) → deleteById db id = db) ∧
    deleteById (deleteById db id) id = deleteById db id := by
  refine ⟨rfl, ?_, ?_⟩
  · intro h
    show Db.mk (db.rows.filter fun t => t.id != id) db.nextId = db
    rw [List.filter_eq_self.mpr (fun t ht => by simpa using h t ht)]
  · simp [deleteById, List.filter_filter]

/-- Witness for C5: deleting an id absent from the empty store returns 204
and leaves the store as it was. -/
theorem delete_one_no_content_idempotent_witness :
    delete_todo_handler none db0 5 = .ok ({ status := 204, body := "" }, db0) := by
  have h := delete_one_no_content_idempotent db0 5
  rw [h.1, h.2.1 (by decide)]

/-- C7: a successful delete-all responds 204, empties the store, and a
subsequent list returns the empty array. -/
theorem delete_all_then_list_empty (routing : RoutingService) (db : Db) :
    (delete_todos_handler none db).fst = { status := 204, body := "" } ∧
    ((delete_todos_handler none db).snd).rows = [] ∧
    todos_list_handler none routing (delete_todos_handler none db).snd = .ok [] :=
  ⟨rfl, rfl, rfl⟩

/-- C8: the URL builder is a pure function equal to the spec's
concatenation `scheme://host:port/todos/{id}` for every input, with no
special-casing of any port. -/
theorem todo_url_is_spec_concatenation (r : RoutingService) (id : Int) :
    todo_url r id = buildUrl r.scheme r.host r.port id ∧
    buildUrl r.scheme r.host r.port id =
      r.scheme ++ "://" ++ r.host ++ ":" ++ toString r.port ++ "/todos/" ++ toString id :=
  ⟨todo_url_eq_buildUrl r id, rfl⟩

/-- C2: the patch operation overwrites exactly the fields present in the
request body and leaves every omitted field at its prior value; the returned
presentation reflects the merged state, and the merged row replaces the old
row in the store. -/
theorem patch_overlays_exactly_supplied_fields
    (routing : RoutingService) (db : Db) (id : Int) (u : UpdateTodo) (t : Todo)
    (h : fetchOne db id = .ok t) :
    patch_todo_handler none none routing db id u =
      .ok ({ todo := { id := t.id, title := u.title.getD t.title,
                       completed := u.completed.getD t.completed,
                       order := u.order.getD t.order },
             url := todo_url routing t.id },
           { db with rows := db.rows.map (fun s =>
               if s.id == t.id then
                 { id := t.id, title := u.title.getD t.title,
                   completed := u.completed.getD t.completed,
                   order := u.order.getD t.order }
               else s) }) := by
  obtain ⟨hm, hid⟩ := fetchOne_ok_mem db id t h
  have hany : db.rows.any (fun s => s.id == t.id) = true :=
    List.any_eq_true.mpr ⟨t, hm, by simp⟩
  subst hid
  simp [patch_todo_handler, runQ, h, applyUpdate_eq, updateTodo, hany]

/-- Witness for C2: a body supplying only `completed` flips `completed` and
leaves `title` and `order` at their prior values. -/
theorem patch_overlays_exactly_supplied_fields_witness :
    patch_todo_handler none none routing0 dbA 1 ⟨none, some true, none⟩ =
      .ok ({ todo := ⟨1, "a", true, 0⟩, url := todo_url routing0 1 },
           ⟨[⟨1, "a", true, 0⟩, ⟨2, "b", true, 5⟩], 3⟩) := by
  have h := patch_overlays_exactly_supplied_fields routing0 dbA 1
    ⟨none, some true, none⟩ ⟨1, "a", false, 0⟩ rfl
  simpa [dbA] using h

/-- C6: creating an item then fetching it by the returned id (no intervening
writes) yields the same presentation, whose fields equal the request's
`title`, `completed == false`, the defaulted `order`, and whose url ends in
`/todos/{id}`. Requires the auto-assigned id sequence to be ahead of every
stored id, which the primary-key sequence guarantees. -/
theorem create_then_show_round_trip
    (routing : RoutingService) (db : Db) (n : NewTodo) (p : TodoPresenter) (db1 : Db)
    (hfresh : db.freshIds)
    (hc : create_todo_handler none routing db n = .ok (p, db1)) :
    todos_show_handler none routing db1 p.todo.id = .ok p ∧
    p.todo.title = n.title ∧ p.todo.completed = false ∧
    p.todo.order = n.order.getD 0 ∧
    ∃ pre, p.url = pre ++ ("/todos/" ++ toString p.todo.id) := by
  simp only [create_todo_handler, runQ, insertTodo, Except.ok.injEq, Prod.mk.injEq] at hc
  obtain ⟨hp, hdb⟩ := hc
  subst hp
  subst hdb
  have h1 : db.rows.find? (fun s => s.id == db.nextId) = none :=
    List.find?_eq_none.mpr (fun s hs => by simpa using Int.ne_of_lt (hfresh s hs))
  refine ⟨?_, rfl, rfl, rfl, ?_⟩
  · simp [todos_show_handler, runQ, fetchOne, List.find?_append, h1]
  · refine ⟨routing.scheme ++ "://" ++ routing.host ++ ":" ++ toString routing.port, ?_⟩
    show todo_url routing db.nextId = _
    rw [todo_url_eq_buildUrl]
    simp [buildUrl, String.append_assoc]

/-- Witness for C6: creating `{title: "a"}` in the empty store and fetching
id 1 returns the created presentation. -/
theorem create_then_show_round_trip_witness :
    todos_show_handler none routing0 ⟨[⟨1, "a", false, 0⟩], 2⟩ (1 : Int) =
      .ok { todo := ⟨1, "a", false, 0⟩, url := todo_url routing0 1 } := by
  have h := create_then_show_round_trip routing0 db0 ⟨"a", none⟩
    { todo := ⟨1, "a", false, 0⟩, url := todo_url routing0 1 }
    ⟨[⟨1, "a", false, 0⟩], 2⟩ (by decide) rfl
  exact h.1

/-- C9: a path segment containing a non-digit does not match the numeric
show route at all; a numeric id with no matching row yields NotFound (404);
a matching row yields its single presentation. -/
theorem show_route_and_errors
    (seg : String) (routing : RoutingService) (db : Db) (id : Int) :
    ((∃ c ∈ seg.data, ¬ c.isDigit) → route_id_matches seg = false) ∧
    ((∀ t ∈ db.rows, t.id ≠ id) →
      todos_show_handler none routing db id = .error Error.NotFound ∧
      Error.statusCode Error.NotFound = 404) ∧
    (∀ t : Todo, fetchOne db id = .ok t →
      todos_show_handler none routing db id = .ok { todo := t, url := todo_url routing id }) := by
  refine ⟨?_, ?_, ?_⟩
  · rintro ⟨c, hc, hnd⟩
    have h2 : seg.all Char.isDigit = false := by
      rw [String.all_eq]
      rw [Bool.eq_false_iff]
      intro hall
      exact hnd (List.all_eq_true.mp hall c hc)
    simp [route_id_matches, h2]
  · intro h
    refine ⟨?_, rfl⟩
    simp [todos_show_handler, runQ, fetchOne_none db id h, Error.fromSqlx]
  · intro t ht
    simp [todos_show_handler, runQ, ht]

/-- Witness for C9: "ab3" does not match the numeric route, and showing the
absent id 7 on the empty store yields NotFound. -/
theorem show_route_and_errors_witness :
    route_id_matches "ab3" = false ∧
    todos_show_handler none routing0 db0 7 = .error Error.NotFound := by
  have h := show_route_and_errors "ab3" routing0 db0 7
  exact ⟨h.1 ⟨'a', by decide, by decide⟩, (h.2.1 (by decide)).1⟩

/-- C1 counterexample: the delete-all handler maps a storage failure to a
400 BadRequest response, not to InternalError (500), refuting the claim as
stated. -/
theorem delete_all_storage_failure_is_bad_request :
    (delete_todos_handler (some SqlxError.Io) db0).fst.status = 400 ∧
    (delete_todos_handler (some SqlxError.Io) db0).fst.status ≠ Error.statusCode Error.InternalError ∧
    (delete_todos_handler (some SqlxError.Io) db0).fst.status = Error.statusCode Error.BadClientData := by
  refine ⟨rfl, ?_, rfl⟩
  decide

/-- C1 (amended): every handler that propagates storage errors through the
`From` conversion (list, show, create, patch at either statement, delete-one)
returns NotFound exactly on the no-row condition and InternalError on every
other storage error; the delete-all handler instead maps any storage failure
to BadRequest (400) with a fixed message. -/
theorem error_propagation_policy :
    (∀ e, Error.fromSqlx e =
      if e = SqlxError.RowNotFound then Error.NotFound else Error.InternalError) ∧
    (∀ e routing db, todos_list_handler (some e) routing db = .error (Error.fromSqlx e)) ∧
    (∀ e routing db id, todos_show_handler (some e) routing db id = .error (Error.fromSqlx e)) ∧
    (∀ e routing db n, create_todo_handler (some e) routing db n = .error (Error.fromSqlx e)) ∧
    (∀ e ufault routing db id u,
      patch_todo_handler (some e) ufault routing db id u = .error (Error.fromSqlx e)) ∧
    (∀ e routing db id u (t : Todo), fetchOne db id = .ok t →
      patch_todo_handler none (some e) routing db id u = .error (Error.fromSqlx e)) ∧
    (∀ e db id, delete_todo_handler (some e) db id = .error (Error.fromSqlx e)) ∧
    (∀ e db, delete_todos_handler (some e) db =
      ({ status := 400, body := "Error trying to delete a todo" }, db)) := by
  refine ⟨?_, ?_, ?_, ?_, ?_, ?_, ?_, ?_⟩
  · intro e; cases e <;> rfl
  · intro e routing db; rfl
  · intro e routing db id; rfl
  · intro e routing db n; rfl
  · intro e ufault routing db id u; rfl
  · intro e routing db id u t ht
    simp [patch_todo_handler, runQ, ht]
  · intro e db id; rfl
  · intro e db; rfl

/-- Witness for C1 (amended): a storage failure at the patch write step is
returned through the `From` conversion. -/
theorem error_propagation_policy_witness :
    patch_todo_handler none (some SqlxError.Io) routing0 dbA 1 ⟨none, none, none⟩ =
      .error (Error.fromSqlx SqlxError.Io) :=
  error_propagation_policy.2.2.2.2.2.1 SqlxError.Io routing0 dbA 1 ⟨none, none, none⟩
    ⟨1, "a", false, 0⟩ rfl

/-- C10: create reads only the `title` and `order` fields of the request
body; two bodies agreeing on those fields produce identical outcomes, and
every successfully created item has `completed == false` regardless of the
body. -/
theorem create_reads_only_title_and_order
    (fault : Option SqlxError) (routing : RoutingService) (db : Db)
    (b1 b2 : List (String × Json))
    (ht : b1.lookup "title" = b2.lookup "title")
    (ho : b1.lookup "order" = b2.lookup "order") :
    create_todo_from_body fault routing db b1 = create_todo_from_body fault routing db b2 ∧
    (∀ p db1, create_todo_from_body fault routing db b1 = .ok (p, db1) →
      p.todo.completed = false) := by
  have hd : decodeNewTodo b1 = decodeNewTodo b2 := by
    rw [decodeNewTodo, decodeNewTodo, ht, ho]
  refine ⟨by rw [create_todo_from_body, create_todo_from_body, hd], ?_⟩
  intro p db1 hc
  rw [create_todo_from_body] at hc
  cases hdec : decodeNewTodo b1 with
  | none => rw [hdec] at hc; cases hc
  | some n =>
    rw [hdec] at hc
    cases fault with
    | some e => cases hc
    | none =>
      simp only [create_todo_handler, runQ, insertTodo, Except.ok.injEq, Prod.mk.injEq] at hc
      obtain ⟨hp, _⟩ := hc
      subst hp
      rfl

/-- Witness for C10: a body carrying extra `completed` and `id` fields
creates exactly what the body without them creates. -/
theorem create_reads_only_title_and_order_witness :
    create_todo_from_body none routing0 db0
        [("title", Json.str "a"), ("completed", Json.bool true), ("id", Json.int 9)] =
      create_todo_from_body none routing0 db0 [("title", Json.str "a")] := by
  have h := create_reads_only_title_and_order none routing0 db0
    [("title", Json.str "a"), ("completed", Json.bool true), ("id", Json.int 9)]
    [("title", Json.str "a")] rfl rfl
  exact h.1

end TodoBackend
